import Mathlib

/-!
Shallow embedding of `sqlt-plainkv.go` (package `sqltplainkv`), a bucket-namespaced
key-value store over SQLite.

Modelling conventions:
* Go byte slices and Go strings-as-byte-sequences (`[]byte(s)`, `string(b)`) are
  `List Nat` of byte values; `strBytes` is the UTF-8 encoding of a Lean string and
  `goLen` is Go's `len` on a string (its UTF-8 byte count).
* The SQLite database file is modelled as an association list `recs` from
  `(Bucket, KeyID)` to `Value`; the `(Bucket, KeyID)` primary key makes `upsert`
  (INSERT .. ON CONFLICT DO UPDATE) replace the value, and the single-row query of
  `get` is `queryRow`.  The engine is deterministic: connection opening, statement
  execution and queries succeed.  The error-translation logic that the Go code
  wraps around `QueryRow(...).Scan` (lines 70-80 of the source) is kept as the
  separate function `getScan` over an abstract `QueryRowResult`, so that the
  treatment of `sql.ErrNoRows` versus other engine errors stays visible.
* The `*sql.DB` handle is the flag `dbOpened` (`db != nil`); the `*sql.Tx` handle is
  `tx : Option TxStatus` (`nil` is `none`), where `TxStatus.done` records that
  `Commit`/`Rollback` was already called on the handle, after which `database/sql`
  returns `ErrTxDone` from any further `Commit`/`Rollback`.
* Explicit transactions are not buffered: statements apply directly to `recs` in
  both the `p.tx` and `p.db` branches of the source (the two branches run the same
  statements).  No claim below depends on rollback undoing writes, so the undo is
  not modelled.
* Go's `int` is `Int` (no claim approaches 64-bit overflow).
* SQLite's `LIKE` operator (used by `ListKeys`) is modelled by `likeMatch`:
  `%` matches any sequence, `_` matches any single character, and ASCII letters
  compare case-insensitively (SQLite's default).
-/

/-- Byte sequences (Go `[]byte` and Go strings viewed as raw bytes). -/
abbrev Bytes := List Nat

/-- UTF-8 encoding of one character, as byte values. -/
def charUtf8 (c : Char) : Bytes :=
  let n := c.toNat
  if n < 128 then [n]
  else if n < 2048 then [192 + n / 64, 128 + n % 64]
  else if n < 65536 then [224 + n / 4096, 128 + (n / 64) % 64, 128 + n % 64]
  else [240 + n / 262144, 128 + (n / 4096) % 64, 128 + (n / 64) % 64, 128 + n % 64]

/-- Go's `[]byte(s)`: the UTF-8 bytes of a string. -/
def strBytes (s : String) : Bytes :=
  (s.data.map charUtf8).flatten

/-- Go's `len` on a string: its UTF-8 byte count. -/
def goLen (s : String) : Nat :=
  (strBytes s).length

/-- Accumulate a decimal digit string; `none` on any non-digit byte. -/
def decDigitsAux : Bytes → Nat → Option Nat
  | [], acc => some acc
  | d :: ds, acc =>
    if 48 ≤ d ∧ d ≤ 57 then decDigitsAux ds (acc * 10 + (d - 48)) else none

/-- Parse a nonempty all-digit byte string; `none` otherwise. -/
def decDigits : Bytes → Option Nat
  | [] => none
  | ds => decDigitsAux ds 0

/-- Go's `strconv.Atoi` as used by `Tally`: the parsed integer, with the ignored
parse error collapsed to the `0` that `Atoi` returns on a syntax error. -/
def atoiB (b : Bytes) : Int :=
  match b with
  | 43 :: rest =>
    match decDigits rest with
    | some n => (n : Int)
    | none => 0
  | 45 :: rest =>
    match decDigits rest with
    | some n => -(n : Int)
    | none => 0
  | _ =>
    match decDigits b with
    | some n => (n : Int)
    | none => 0

/-- Go's `strconv.Itoa`, producing bytes (decimal, `-` sign for negatives). -/
def itoaB (n : Int) : Bytes :=
  strBytes (toString n)

/-- SQLite lower-casing for its default `LIKE`: ASCII letters only. -/
def asciiLower (c : Char) : Char :=
  if 65 ≤ c.toNat ∧ c.toNat ≤ 90 then Char.ofNat (c.toNat + 32) else c

/-- SQLite `LIKE` pattern matching: `%` matches any sequence (tried as every
suffix of the subject), `_` any single character, other characters match
ASCII-case-insensitively. -/
def likeMatch : List Char → List Char → Bool
  | [], s => s.isEmpty
  | '%' :: ps, s => s.tails.any (fun t => likeMatch ps t)
  | '_' :: _, [] => false
  | '_' :: ps, _ :: cs => likeMatch ps cs
  | _ :: _, [] => false
  | c :: ps, d :: cs => (asciiLower c == asciiLower d) && likeMatch ps cs

/-- The sentinel errors of the package, plus the engine errors it can surface:
`database/sql`'s `ErrTxDone` (returned by `Commit`/`Rollback` on a finished
transaction handle) and arbitrary engine errors carried by a message. -/
inductive PKVError where
  | errBucketIdTooLong
  | errKeyTooLong
  | errValueTooLong
  | errTxDone
  | engineErr (msg : String)
deriving DecidableEq

/-- Status of a `*sql.Tx` handle: still usable, or already committed/rolled back. -/
inductive TxStatus where
  | live
  | done
deriving DecidableEq

/-- Rows of the `KeyValueTBL` table: `(Bucket, KeyID) → Value`. -/
abbrev RecList := List ((String × String) × Bytes)

/-- Row lookup by the `(Bucket, KeyID)` primary key. -/
def findRec (recs : RecList) (bucket key : String) : Option Bytes :=
  (recs.find? (fun e => e.1.1 == bucket && e.1.2 == key)).map (fun e => e.2)

/-- `DELETE FROM tbl WHERE Bucket = ? AND KeyID = ?`. -/
def deleteRec (recs : RecList) (bucket key : String) : RecList :=
  recs.filter (fun e => !(e.1.1 == bucket && e.1.2 == key))

/-- `INSERT .. ON CONFLICT(Bucket,KeyID) DO UPDATE SET Value=excluded.Value`. -/
def upsert (recs : RecList) (bucket key : String) (value : Bytes) : RecList :=
  ((bucket, key), value) :: deleteRec recs bucket key

/-- Outcome of `QueryRow(...).Scan(&val)`: a row, `sql.ErrNoRows`, or another
engine error. -/
inductive QueryRowResult where
  | row (v : Bytes)
  | noRows
  | engineErr (msg : String)
deriving DecidableEq

/-- The single-row query of `get` against the deterministic engine. -/
def queryRow (recs : RecList) (bucket key : String) : QueryRowResult :=
  match findRec recs bucket key with
  | some v => QueryRowResult.row v
  | none => QueryRowResult.noRows

/-- The error translation of `get` around `Scan` (source lines 70-80): `val`
starts empty, a row fills it, `sql.ErrNoRows` is swallowed, any other engine
error is returned alongside the still-empty `val`. -/
def getScan (q : QueryRowResult) : Bytes × Option PKVError :=
  match q with
  | QueryRowResult.row v => (v, none)
  | QueryRowResult.noRows => ([], none)
  | QueryRowResult.engineErr e => ([], some (PKVError.engineErr e))

/-- `const mimeBuckt = "--mime--"`. -/
def mimeBuckt : String := "--mime--"

/-- The `tallyKey` format string with its `%s` hole removed. -/
def tallyKey : String := "_______#tally-"

/-- `fmt.Sprintf(tallyKey, key)`. -/
def tallyKeyFor (key : String) : String :=
  tallyKey ++ key

/-- The bucket normalization `if bucket == "" { bucket = "default" }`. -/
def normBucket (b : String) : String :=
  if b = "" then "default" else b

/-- The store: `currBuckt`, the database contents (`recs`, standing for the SQLite
file reachable through `db`), whether `db != nil` (`dbOpened`), the `tx` handle,
and the `inTransaction` and `autoClose` flags.  `DSN` and `defTableName` only
parameterize the external engine and carry no behaviour here. -/
structure SQLtPlainKV where
  currBuckt : String
  recs : RecList
  dbOpened : Bool
  tx : Option TxStatus
  inTransaction : Bool
  autoClose : Bool
deriving DecidableEq

/-- `NewSQLtPlainKV` over a fresh (empty) database file. -/
def NewSQLtPlainKV (autoClose : Bool) : SQLtPlainKV :=
  { currBuckt := "default"
    recs := []
    dbOpened := false
    tx := none
    inTransaction := false
    autoClose := autoClose }

/-- `Open`: no-op if `db != nil`; otherwise clears `inTransaction`, opens the
connection and ensures the table exists (both succeeding against the
deterministic engine). -/
def SQLtPlainKV.Open (p : SQLtPlainKV) : SQLtPlainKV :=
  if p.dbOpened then p
  else { p with inTransaction := false, dbOpened := true }

/-- `Close`: drops the `tx` handle, then closes `db` if open.  `inTransaction`
is left as is, exactly as in the source. -/
def SQLtPlainKV.Close (p : SQLtPlainKV) : SQLtPlainKV :=
  let p := { p with tx := none }
  if p.dbOpened then { p with dbOpened := false } else p

/-- The `defer p.Close()` that runs when `autoClose` is set. -/
def SQLtPlainKV.autoFinish (p : SQLtPlainKV) : SQLtPlainKV :=
  if p.autoClose then p.Close else p

/-- The private `get`: open, normalize the local bucket argument, run the
single-row query, translate it through `getScan`. -/
def SQLtPlainKV.get (p : SQLtPlainKV) (bucket key : String) :
    (Bytes × Option PKVError) × SQLtPlainKV :=
  let p := p.Open
  let bucket := normBucket bucket
  (getScan (queryRow p.recs bucket key), p.autoFinish)

/-- The private `set`: open, then the three length checks in source order, then
the upsert.  The checks run after `Open` — the connection and schema statement
have already touched the engine when they fire. -/
def SQLtPlainKV.set (p : SQLtPlainKV) (bucket key : String) (value : Bytes) :
    Option PKVError × SQLtPlainKV :=
  let p := p.Open
  if goLen bucket > 50 then (some PKVError.errBucketIdTooLong, p.autoFinish)
  else if goLen key > 300 then (some PKVError.errKeyTooLong, p.autoFinish)
  else if value.length > 16777215 then (some PKVError.errValueTooLong, p.autoFinish)
  else (none, ({ p with recs := upsert p.recs bucket key value }).autoFinish)

/-- `Get`: the private `get` on the current bucket (the field is not mutated). -/
def SQLtPlainKV.Get (p : SQLtPlainKV) (key : String) :
    (Bytes × Option PKVError) × SQLtPlainKV :=
  p.get p.currBuckt key

/-- The result shaping of `GetMime`: on any error or an empty value the default
content type `"text/html"` is returned together with the error. -/
def mimeResult (r : Bytes × Option PKVError) : Bytes × Option PKVError :=
  if r.2.isSome || r.1.length == 0 then (strBytes "text/html", r.2) else (r.1, none)

/-- `GetMime`: the private `get` on the reserved mime bucket, shaped by
`mimeResult` (`string(val)` is the identity on raw bytes). -/
def SQLtPlainKV.GetMime (p : SQLtPlainKV) (key : String) :
    (Bytes × Option PKVError) × SQLtPlainKV :=
  let r := p.get mimeBuckt key
  (mimeResult r.1, r.2)

/-- `Set`: normalizes the `currBuckt` field itself, then the private `set`. -/
def SQLtPlainKV.Set (p : SQLtPlainKV) (key : String) (value : Bytes) :
    Option PKVError × SQLtPlainKV :=
  let p := { p with currBuckt := normBucket p.currBuckt }
  p.set p.currBuckt key value

/-- `SetMime`: the private `set` into the reserved mime bucket. -/
def SQLtPlainKV.SetMime (p : SQLtPlainKV) (key : String) (mime : Bytes) :
    Option PKVError × SQLtPlainKV :=
  p.set mimeBuckt key mime

/-- `SetBucket`. -/
def SQLtPlainKV.SetBucket (p : SQLtPlainKV) (bucket : String) : SQLtPlainKV :=
  { p with currBuckt := bucket }

/-- `Del`: open, normalize the `currBuckt` field, delete the data row and then
the mime row (the `tx` and `db` branches of the source run the same two
statements). -/
def SQLtPlainKV.Del (p : SQLtPlainKV) (key : String) :
    Option PKVError × SQLtPlainKV :=
  let p := p.Open
  let p := { p with currBuckt := normBucket p.currBuckt }
  let p := { p with recs := deleteRec p.recs p.currBuckt key }
  let p := { p with recs := deleteRec p.recs mimeBuckt key }
  (none, p.autoFinish)

/-- `ListKeys`: open, normalize the `currBuckt` field, then
`SELECT KeyID WHERE Bucket = ? AND KeyID LIKE pat+"%"`. -/
def SQLtPlainKV.ListKeys (p : SQLtPlainKV) (pat : String) :
    (List String × Option PKVError) × SQLtPlainKV :=
  let p := p.Open
  let p := { p with currBuckt := normBucket p.currBuckt }
  let keys :=
    (p.recs.filter
      (fun e => e.1.1 == p.currBuckt && likeMatch ((pat ++ "%").data) e.1.2.data)).map
      (fun e => e.1.2)
  ((keys, none), p.autoFinish)

/-- `Tally`: read the counter row through the private `get`; if the read value is
empty, write `Itoa(offset)` through the private `set`; in every successful path
return `Atoi` of the value that was read (so a fresh counter returns
`Atoi("") = 0`, not `offset`). -/
def SQLtPlainKV.Tally (p : SQLtPlainKV) (key : String) (offset : Int) :
    (Int × Option PKVError) × SQLtPlainKV :=
  let tk := tallyKeyFor key
  let r := p.get p.currBuckt tk
  let tlly := r.1.1
  let p := r.2
  match r.1.2 with
  | some e => ((-1, some e), p)
  | none =>
    if tlly.length = 0 then
      let s := p.set p.currBuckt tk (itoaB offset)
      match s.1 with
      | some e => ((-1, some e), s.2)
      | none => ((atoiB tlly, none), s.2)
    else ((atoiB tlly, none), p)

/-- `TallyIncr`: `Tally(key, 0)`, then write and return the value plus one. -/
def SQLtPlainKV.TallyIncr (p : SQLtPlainKV) (key : String) :
    (Int × Option PKVError) × SQLtPlainKV :=
  let r := p.Tally key 0
  let tlly := r.1.1
  let p := r.2
  match r.1.2 with
  | some e => ((tlly, some e), p)
  | none =>
    let s := p.set p.currBuckt (tallyKeyFor key) (itoaB (tlly + 1))
    match s.1 with
    | some e => ((tlly, some e), s.2)
    | none => ((tlly + 1, none), s.2)

/-- `TallyDecr`: `Tally(key, 0)`, then write and return the value minus one. -/
def SQLtPlainKV.TallyDecr (p : SQLtPlainKV) (key : String) :
    (Int × Option PKVError) × SQLtPlainKV :=
  let r := p.Tally key 0
  let tlly := r.1.1
  let p := r.2
  match r.1.2 with
  | some e => ((tlly, some e), p)
  | none =>
    let s := p.set p.currBuckt (tallyKeyFor key) (itoaB (tlly - 1))
    match s.1 with
    | some e => ((tlly, some e), s.2)
    | none => ((tlly - 1, none), s.2)

/-- `TallyReset`: write `"0"` through the private `set`. -/
def SQLtPlainKV.TallyReset (p : SQLtPlainKV) (key : String) :
    Option PKVError × SQLtPlainKV :=
  p.set p.currBuckt (tallyKeyFor key) (strBytes "0")

/-- `Begin`: starts a transaction on the deterministic engine; the handle is
stored and `inTransaction` set. -/
def SQLtPlainKV.Begin (p : SQLtPlainKV) : Option PKVError × SQLtPlainKV :=
  (none, { p with tx := some TxStatus.live, inTransaction := true })

/-- `Commit`: success when the handle is `nil`; otherwise `tx.Commit()`, which
succeeds on a live handle (leaving the handle set, as the source never clears
it) and returns `ErrTxDone` on an already-finished one. -/
def SQLtPlainKV.Commit (p : SQLtPlainKV) : Option PKVError × SQLtPlainKV :=
  match p.tx with
  | none => (none, p)
  | some TxStatus.done => (some PKVError.errTxDone, p)
  | some TxStatus.live =>
    (none, { p with tx := some TxStatus.done, inTransaction := false })

/-- `Rollback`: symmetric to `Commit`. -/
def SQLtPlainKV.Rollback (p : SQLtPlainKV) : Option PKVError × SQLtPlainKV :=
  match p.tx with
  | none => (none, p)
  | some TxStatus.done => (some PKVError.errTxDone, p)
  | some TxStatus.live =>
    (none, { p with tx := some TxStatus.done, inTransaction := false })

/-! ### Helper lemmas about the state plumbing -/

@[simp]
theorem SQLtPlainKV.Open_recs (p : SQLtPlainKV) : p.Open.recs = p.recs := by
  unfold SQLtPlainKV.Open; split <;> rfl

@[simp]
theorem SQLtPlainKV.Open_currBuckt (p : SQLtPlainKV) : p.Open.currBuckt = p.currBuckt := by
  unfold SQLtPlainKV.Open; split <;> rfl

@[simp]
theorem SQLtPlainKV.Open_autoClose (p : SQLtPlainKV) : p.Open.autoClose = p.autoClose := by
  unfold SQLtPlainKV.Open; split <;> rfl

@[simp]
theorem SQLtPlainKV.Close_recs (p : SQLtPlainKV) : p.Close.recs = p.recs := by
  simp only [SQLtPlainKV.Close]; split <;> rfl

@[simp]
theorem SQLtPlainKV.Close_currBuckt (p : SQLtPlainKV) : p.Close.currBuckt = p.currBuckt := by
  simp only [SQLtPlainKV.Close]; split <;> rfl

@[simp]
theorem SQLtPlainKV.autoFinish_recs (p : SQLtPlainKV) : p.autoFinish.recs = p.recs := by
  unfold SQLtPlainKV.autoFinish; split <;> simp

@[simp]
theorem SQLtPlainKV.autoFinish_currBuckt (p : SQLtPlainKV) :
    p.autoFinish.currBuckt = p.currBuckt := by
  unfold SQLtPlainKV.autoFinish; split <;> simp

theorem SQLtPlainKV.get_currBuckt (p : SQLtPlainKV) (b k : String) :
    (p.get b k).2.currBuckt = p.currBuckt := by
  simp [SQLtPlainKV.get]

theorem SQLtPlainKV.get_recs (p : SQLtPlainKV) (b k : String) :
    (p.get b k).2.recs = p.recs := by
  simp [SQLtPlainKV.get]

theorem SQLtPlainKV.get_result (p : SQLtPlainKV) (b k : String) :
    (p.get b k).1 = getScan (queryRow p.recs (normBucket b) k) := by
  simp [SQLtPlainKV.get]

theorem SQLtPlainKV.get_err_none (p : SQLtPlainKV) (b k : String) :
    (p.get b k).1.2 = none := by
  rw [SQLtPlainKV.get_result]
  unfold queryRow
  cases findRec p.recs (normBucket b) k <;> rfl

theorem SQLtPlainKV.set_currBuckt (p : SQLtPlainKV) (b k : String) (v : Bytes) :
    (p.set b k v).2.currBuckt = p.currBuckt := by
  unfold SQLtPlainKV.set
  split
  · simp
  · split
    · simp
    · split <;> simp

theorem SQLtPlainKV.set_ok (p : SQLtPlainKV) (b k : String) (v : Bytes)
    (h50 : goLen b ≤ 50) (h300 : goLen k ≤ 300) (hv : v.length ≤ 16777215) :
    (p.set b k v).1 = none ∧ (p.set b k v).2.recs = upsert p.recs b k v := by
  unfold SQLtPlainKV.set
  rw [if_neg (by omega), if_neg (by omega), if_neg (by omega)]
  simp

theorem SQLtPlainKV.Tally_currBuckt (p : SQLtPlainKV) (k : String) (off : Int) :
    (p.Tally k off).2.currBuckt = p.currBuckt := by
  simp only [SQLtPlainKV.Tally]
  split
  · next e heq =>
    rw [SQLtPlainKV.get_err_none] at heq
    exact absurd heq (by simp)
  · split
    · split
      · simp [SQLtPlainKV.set_currBuckt, SQLtPlainKV.get_currBuckt]
      · simp [SQLtPlainKV.set_currBuckt, SQLtPlainKV.get_currBuckt]
    · simp [SQLtPlainKV.get_currBuckt]

/-! ### Helper lemmas about the record list -/

theorem find?_filter_of_imp {α : Type} (pred q : α → Bool)
    (h : ∀ e, pred e = true → q e = true) :
    ∀ l : List α, (l.filter q).find? pred = l.find? pred := by
  intro l
  induction l with
  | nil => rfl
  | cons e t ih =>
    rw [List.filter_cons]
    by_cases hp : pred e = true
    · rw [if_pos (h e hp), List.find?_cons_of_pos _ hp, List.find?_cons_of_pos _ hp]
    · by_cases hq : q e = true
      · rw [if_pos hq, List.find?_cons_of_neg _ (by simp [hp]),
          List.find?_cons_of_neg _ (by simp [hp]), ih]
      · rw [if_neg hq, List.find?_cons_of_neg _ (by simp [hp]), ih]

theorem find?_filter_none {α : Type} (pred q : α → Bool)
    (h : ∀ e, pred e = true → q e = false) (l : List α) :
    (l.filter q).find? pred = none := by
  rw [List.find?_eq_none]
  intro x hx hpx
  have hqx := (List.mem_filter.mp hx).2
  rw [h x hpx] at hqx
  exact absurd hqx (by simp)

theorem find?_none_filter {α : Type} (pred q : α → Bool) (l : List α)
    (h : l.find? pred = none) : (l.filter q).find? pred = none := by
  rw [List.find?_eq_none] at h ⊢
  intro x hx
  exact h x (List.mem_filter.mp hx).1

theorem findRec_upsert_self (l : RecList) (b k : String) (v : Bytes) :
    findRec (upsert l b k v) b k = some v := by
  unfold findRec upsert
  rw [List.find?_cons_of_pos _ (by simp)]
  rfl

theorem findRec_deleteRec_self (l : RecList) (b k : String) :
    findRec (deleteRec l b k) b k = none := by
  unfold findRec deleteRec
  rw [find?_filter_none]
  · rfl
  · intro e he
    simp [he]

theorem findRec_deleteRec_of_none (l : RecList) (b k b2 k2 : String)
    (h : findRec l b k = none) :
    findRec (deleteRec l b2 k2) b k = none := by
  unfold findRec deleteRec
  unfold findRec at h
  rw [Option.map_eq_none'] at h
  rw [find?_none_filter _ _ _ h]
  rfl

theorem findRec_upsert_of_ne_bucket (l : RecList) (b k : String) (v : Bytes)
    (b2 k2 : String) (hb : ¬ b = b2) :
    findRec (upsert l b k v) b2 k2 = findRec l b2 k2 := by
  unfold findRec upsert deleteRec
  rw [List.find?_cons_of_neg _
      (by intro hc; simp only [Bool.and_eq_true, beq_iff_eq] at hc; exact hb hc.1),
    find?_filter_of_imp]
  intro e he
  simp only [Bool.and_eq_true, beq_iff_eq] at he
  have hb2 : ¬ e.1.1 = b := by
    rw [he.1]; exact fun h => hb h.symm
  simp [hb2]

/-! ### Helper lemmas about bucket normalization -/

theorem normBucket_ne_empty (b : String) : ¬ normBucket b = "" := by
  unfold normBucket
  split
  · decide
  · assumption

theorem normBucket_of_ne {b : String} (h : ¬ b = "") : normBucket b = b :=
  if_neg h

theorem normBucket_idem (b : String) : normBucket (normBucket b) = normBucket b :=
  normBucket_of_ne (normBucket_ne_empty b)

/-! ### Per-operation description lemmas -/

theorem SQLtPlainKV.Set_ok (p : SQLtPlainKV) (k : String) (v : Bytes)
    (hb : goLen (normBucket p.currBuckt) ≤ 50) (hk : goLen k ≤ 300)
    (hv : v.length ≤ 16777215) :
    (p.Set k v).1 = none ∧
    (p.Set k v).2.recs = upsert p.recs (normBucket p.currBuckt) k v := by
  simp only [SQLtPlainKV.Set]
  exact SQLtPlainKV.set_ok { p with currBuckt := normBucket p.currBuckt }
    (normBucket p.currBuckt) k v hb hk hv

theorem SQLtPlainKV.Del_recs (p : SQLtPlainKV) (k : String) :
    (p.Del k).1 = none ∧
    (p.Del k).2.recs =
      deleteRec (deleteRec p.recs (normBucket p.currBuckt) k) mimeBuckt k ∧
    (p.Del k).2.currBuckt = normBucket p.currBuckt := by
  refine ⟨rfl, ?_, ?_⟩
  · simp [SQLtPlainKV.Del]
  · simp [SQLtPlainKV.Del]

theorem SQLtPlainKV.ListKeys_spec (p : SQLtPlainKV) (pat : String) :
    (p.ListKeys pat).1.1 =
      (p.recs.filter
        (fun e => e.1.1 == normBucket p.currBuckt &&
          likeMatch ((pat ++ "%").data) e.1.2.data)).map (fun e => e.1.2) ∧
    (p.ListKeys pat).1.2 = none ∧
    (p.ListKeys pat).2.currBuckt = normBucket p.currBuckt := by
  refine ⟨?_, rfl, ?_⟩
  · simp [SQLtPlainKV.ListKeys]
  · simp [SQLtPlainKV.ListKeys]

theorem SQLtPlainKV.TallyReset_ok (p : SQLtPlainKV) (k : String)
    (hb : goLen p.currBuckt ≤ 50) (htk : goLen (tallyKeyFor k) ≤ 300) :
    (p.TallyReset k).1 = none ∧
    (p.TallyReset k).2.recs =
      upsert p.recs p.currBuckt (tallyKeyFor k) (strBytes "0") := by
  unfold SQLtPlainKV.TallyReset
  exact SQLtPlainKV.set_ok p p.currBuckt (tallyKeyFor k) (strBytes "0") hb htk
    (by decide)

theorem SQLtPlainKV.TallyIncr_currBuckt (p : SQLtPlainKV) (k : String) :
    (p.TallyIncr k).2.currBuckt = p.currBuckt := by
  simp only [SQLtPlainKV.TallyIncr]
  split
  · simp [SQLtPlainKV.Tally_currBuckt]
  · split <;> simp [SQLtPlainKV.set_currBuckt, SQLtPlainKV.Tally_currBuckt]

theorem SQLtPlainKV.TallyDecr_currBuckt (p : SQLtPlainKV) (k : String) :
    (p.TallyDecr k).2.currBuckt = p.currBuckt := by
  simp only [SQLtPlainKV.TallyDecr]
  split
  · simp [SQLtPlainKV.Tally_currBuckt]
  · split <;> simp [SQLtPlainKV.set_currBuckt, SQLtPlainKV.Tally_currBuckt]

/-! ### Concrete stores used by counterexamples and witnesses -/

/-- A fresh store over an empty database file, `autoClose` off. -/
def freshKV : SQLtPlainKV := NewSQLtPlainKV false

/-- `freshKV` after `SetBucket("")`. -/
def emptyBucketKV : SQLtPlainKV := freshKV.SetBucket ""

/-- `freshKV` with the connection already opened. -/
def openKV : SQLtPlainKV := { freshKV with dbOpened := true }

/-- `openKV` after `Begin()` followed by a successful `Commit()`. -/
def committedKV : SQLtPlainKV := ((openKV.Begin).2.Commit).2

/-- A 51-byte bucket name. -/
def longBucket : String := "aaaaaaaaaaaaaaaaaaaaaaaaaaaaaaaaaaaaaaaaaaaaaaaaaaa"

/-- A store whose database holds the single data record `("default", "a") = "1"`. -/
def oneKeyKV : SQLtPlainKV := { freshKV with recs := [(("default", "a"), [49])] }

/-! ### Claims -/

/-- Claim C1 (code bug in the source): on a fresh key, `Tally("k", 5)` writes
the counter record with the decimal encoding `"5"` of the offset, but returns
`0` rather than the claimed `5` — the source applies `Atoi` to the empty
pre-write read instead of the just-written offset. -/
theorem tally_fresh_persists_offset_but_returns_zero :
    (freshKV.Tally "k" 5).1 = (0, none) ∧
    findRec (freshKV.Tally "k" 5).2.recs "default" (tallyKeyFor "k") =
      some (strBytes "5") ∧
    (0 : Int) ≠ 5 :=
  ⟨rfl, rfl, by decide⟩

/-- Claim C2 counterexample: with the connection closed, `set` with a 51-byte
bucket does return `ErrBucketIdTooLong`, but the resulting state has the
connection open — `Open()` (connection plus schema statement) ran before the
length checks fired, so the checks do not run before the engine is touched. -/
theorem set_cex_opens_engine_before_checks :
    (freshKV.set longBucket "k" []).1 = some PKVError.errBucketIdTooLong ∧
    freshKV.dbOpened = false ∧
    (freshKV.set longBucket "k" []).2.dbOpened = true :=
  ⟨rfl, rfl, rfl⟩

/-- Claim C2 (amended): on a bucket longer than 50 bytes, a key longer than 300
bytes, or a value larger than 16777215 bytes, `set` returns the corresponding
sentinel error and performs no record write — the resulting store is exactly
the input store passed through `Open` and the `autoClose` finalizer, whose
records are unchanged — but the length checks run after `Open`, which has
already touched the engine. -/
theorem set_bounds_sentinels_no_write (p : SQLtPlainKV) (b k : String) (v : Bytes) :
    (goLen b > 50 →
      p.set b k v = (some PKVError.errBucketIdTooLong, p.Open.autoFinish)) ∧
    (goLen b ≤ 50 → goLen k > 300 →
      p.set b k v = (some PKVError.errKeyTooLong, p.Open.autoFinish)) ∧
    (goLen b ≤ 50 → goLen k ≤ 300 → v.length > 16777215 →
      p.set b k v = (some PKVError.errValueTooLong, p.Open.autoFinish)) ∧
    p.Open.autoFinish.recs = p.recs := by
  refine ⟨?_, ?_, ?_, by simp⟩
  · intro h1
    simp only [SQLtPlainKV.set]
    rw [if_pos h1]
  · intro h1 h2
    simp only [SQLtPlainKV.set]
    rw [if_neg (by omega), if_pos h2]
  · intro h1 h2 h3
    simp only [SQLtPlainKV.set]
    rw [if_neg (by omega), if_neg (by omega), if_pos h3]

/-- Witness for the amended Claim C2 at a concrete oversized bucket. -/
theorem set_bounds_sentinels_no_write_witness :
    (freshKV.set longBucket "k" []).1 = some PKVError.errBucketIdTooLong ∧
    (freshKV.set longBucket "k" []).2.recs = freshKV.recs := by
  have h := set_bounds_sentinels_no_write freshKV longBucket "k" []
  rw [h.1 (by decide)]
  exact ⟨rfl, h.2.2.2⟩

/-- Claim C3 counterexample: after `Begin()` and a successful `Commit()` no
transaction is active any more (`inTransaction` is false), yet the source never
clears the tx handle, so a second `Commit()` or `Rollback()` returns the
engine's `ErrTxDone` instead of succeeding as a no-op. -/
theorem commit_cex_second_commit_errors :
    committedKV.inTransaction = false ∧
    committedKV.Commit = (some PKVError.errTxDone, committedKV) ∧
    committedKV.Rollback = (some PKVError.errTxDone, committedKV) :=
  ⟨rfl, rfl, rfl⟩

/-- Claim C3 (amended): `Commit` and `Rollback` succeed as no-ops, leaving the
store unchanged, exactly when the tx handle is nil (a store that never began a
transaction, or one whose handle was dropped by `Close`); the handle survives a
successful `Commit`/`Rollback`, so that state is not a no-op state. -/
theorem commit_rollback_noop_of_no_tx (p : SQLtPlainKV) (h : p.tx = none) :
    p.Commit = (none, p) ∧ p.Rollback = (none, p) := by
  unfold SQLtPlainKV.Commit SQLtPlainKV.Rollback
  rw [h]
  exact ⟨rfl, rfl⟩

/-- Witness for the amended Claim C3 on a fresh store. -/
theorem commit_rollback_noop_of_no_tx_witness :
    freshKV.Commit = (none, freshKV) ∧ freshKV.Rollback = (none, freshKV) :=
  commit_rollback_noop_of_no_tx freshKV rfl

/-- Claim C4 counterexample: with the current bucket set to `""`, a fresh
`Tally` writes its counter record into bucket `""`, not into `"default"` —
the write goes through the private `set`, which does not normalize. -/
theorem tally_cex_empty_bucket_write_not_normalized :
    findRec (emptyBucketKV.Tally "k" 7).2.recs "" (tallyKeyFor "k") =
      some (strBytes "7") ∧
    findRec (emptyBucketKV.Tally "k" 7).2.recs "default" (tallyKeyFor "k") =
      none :=
  ⟨rfl, rfl⟩

/-- Claim C4 (amended): the empty bucket is normalized to `"default"` by the
private `get` (covering every read) and by the writes of `Set` and `Del`, but
the Tally family's writes go through the private `set`, which does not
normalize: with an empty current bucket, `TallyReset` stores its record under
bucket `""` and leaves bucket `"default"` untouched. -/
theorem bucket_normalization_mixed (p : SQLtPlainKV) (k : String) (v : Bytes)
    (h : p.currBuckt = "") (hk : goLen k ≤ 300) (hv : v.length ≤ 16777215)
    (htk : goLen (tallyKeyFor k) ≤ 300) :
    p.get "" k = p.get "default" k ∧
    findRec (p.Set k v).2.recs "default" k = some v ∧
    findRec (p.Del k).2.recs "default" k = none ∧
    findRec (p.TallyReset k).2.recs "" (tallyKeyFor k) = some (strBytes "0") ∧
    findRec (p.TallyReset k).2.recs "default" (tallyKeyFor k) =
      findRec p.recs "default" (tallyKeyFor k) := by
  have hnb : normBucket p.currBuckt = "default" := by rw [h]; rfl
  refine ⟨rfl, ?_, ?_, ?_, ?_⟩
  · have hs := SQLtPlainKV.Set_ok p k v (by rw [hnb]; decide) hk hv
    rw [hs.2, hnb]
    exact findRec_upsert_self _ _ _ _
  · have hd := SQLtPlainKV.Del_recs p k
    rw [hd.2.1, hnb]
    exact findRec_deleteRec_of_none _ _ _ _ _ (findRec_deleteRec_self _ _ _)
  · have ht := SQLtPlainKV.TallyReset_ok p k (by rw [h]; decide) htk
    rw [ht.2, h]
    exact findRec_upsert_self _ _ _ _
  · have ht := SQLtPlainKV.TallyReset_ok p k (by rw [h]; decide) htk
    rw [ht.2, h]
    exact findRec_upsert_of_ne_bucket _ _ _ _ _ _ (by decide)

/-- Witness for the amended Claim C4 at a concrete store with empty bucket. -/
theorem bucket_normalization_mixed_witness :
    findRec (emptyBucketKV.Set "k" [49]).2.recs "default" "k" = some [49] ∧
    findRec (emptyBucketKV.TallyReset "k").2.recs "" (tallyKeyFor "k") =
      some (strBytes "0") := by
  have h := bucket_normalization_mixed emptyBucketKV "k" [49] rfl (by decide)
    (by decide) (by decide)
  exact ⟨h.2.1, h.2.2.2.1⟩

/-- Claim C5 counterexample: the bucket `""` is within the size bounds, yet
`set("", "k", "1")` succeeds while the following `get("", "k")` returns the
empty sequence, not `"1"` — `get` normalizes `""` to `"default"` but the
private `set` stored under the literal `""`. -/
theorem set_get_cex_empty_bucket :
    (freshKV.set "" "k" [49]).1 = none ∧
    ((freshKV.set "" "k" [49]).2.get "" "k").1 = ([], none) ∧
    ([] : Bytes) ≠ [49] :=
  ⟨rfl, rfl, by decide⟩

/-- Claim C5 (amended): for every nonempty bucket within the size bounds
(bucket of at most 50 bytes, key of at most 300 bytes, value of at most
16777215 bytes), `set` succeeds and a following `get` of the same bucket and
key returns exactly the stored value with no error; the empty bucket is
excluded because `get` normalizes it while `set` does not. -/
theorem set_get_roundtrip (p : SQLtPlainKV) (b k : String) (v : Bytes)
    (hb : ¬ b = "") (h50 : goLen b ≤ 50) (h300 : goLen k ≤ 300)
    (hv : v.length ≤ 16777215) :
    (p.set b k v).1 = none ∧ ((p.set b k v).2.get b k).1 = (v, none) := by
  have hs := SQLtPlainKV.set_ok p b k v h50 h300 hv
  refine ⟨hs.1, ?_⟩
  rw [SQLtPlainKV.get_result, hs.2, normBucket_of_ne hb]
  unfold queryRow
  rw [findRec_upsert_self]
  rfl

/-- Witness for the amended Claim C5 at a concrete record. -/
theorem set_get_roundtrip_witness :
    (freshKV.set "b" "k" [7]).1 = none ∧
    ((freshKV.set "b" "k" [7]).2.get "b" "k").1 = ([7], none) :=
  set_get_roundtrip freshKV "b" "k" [7] (by decide) (by decide) (by decide)
    (by decide)

/-- Claim C6 (confirmed): a successful `Del` removes both the data record in the
current bucket and the mime record for the key: afterwards `Get` returns the
empty sequence with no error and `GetMime` returns the default content type
`"text/html"` with no error. -/
theorem del_removes_data_and_mime (p : SQLtPlainKV) (k : String) :
    (p.Del k).1 = none ∧
    ((p.Del k).2.Get k).1 = ([], none) ∧
    ((p.Del k).2.GetMime k).1 = (strBytes "text/html", none) := by
  have hd := SQLtPlainKV.Del_recs p k
  refine ⟨hd.1, ?_, ?_⟩
  · unfold SQLtPlainKV.Get
    rw [SQLtPlainKV.get_result, hd.2.1, hd.2.2, normBucket_idem]
    unfold queryRow
    rw [findRec_deleteRec_of_none _ _ _ _ _ (findRec_deleteRec_self _ _ _)]
    rfl
  · simp only [SQLtPlainKV.GetMime]
    rw [SQLtPlainKV.get_result, hd.2.1]
    have hm : normBucket mimeBuckt = mimeBuckt := rfl
    rw [hm]
    unfold queryRow
    rw [findRec_deleteRec_self]
    rfl

/-- Claim C7 counterexample: `ListKeys("_")` on a bucket holding the single key
`"a"` returns `["a"]` even though `"a"` does not start with the literal prefix
`"_"` — the SQL `LIKE` treats `_` as a single-character wildcard. -/
theorem listKeys_cex_wildcard :
    (oneKeyKV.ListKeys "_").1.1 = ["a"] ∧
    List.isPrefixOf ("_".data) ("a".data) = false :=
  ⟨rfl, by decide⟩

/-- Claim C7 (amended): `ListKeys(pattern)` returns exactly the KeyIDs of the
current bucket that match `pattern + "%"` under the engine's `LIKE` semantics
(`%` matches any sequence, `_` any single character, ASCII letters
case-insensitively) — which coincides with literal prefix matching only for
patterns free of wildcard characters and of ASCII case differences — and it
returns an empty sequence, not an error, when nothing matches. -/
theorem listKeys_like_characterization (p : SQLtPlainKV) (pat k : String) :
    (p.ListKeys pat).1.2 = none ∧
    (k ∈ (p.ListKeys pat).1.1 ↔
      ∃ v, ((normBucket p.currBuckt, k), v) ∈ p.recs ∧
        likeMatch ((pat ++ "%").data) k.data = true) := by
  have hl := SQLtPlainKV.ListKeys_spec p pat
  refine ⟨hl.2.1, ?_⟩
  rw [hl.1]
  simp only [List.mem_map, List.mem_filter, Bool.and_eq_true, beq_iff_eq]
  constructor
  · rintro ⟨⟨⟨b1, k1⟩, v1⟩, ⟨hmem, hb1, hlike⟩, hk1⟩
    dsimp only at hb1 hlike hk1
    subst hb1
    subst hk1
    exact ⟨v1, hmem, hlike⟩
  · rintro ⟨v, hmem, hlike⟩
    exact ⟨((normBucket p.currBuckt, k), v), ⟨hmem, rfl, hlike⟩, rfl⟩

/-- Claim C8 (confirmed): `get` on a bucket/key pair with no record returns the
empty byte sequence and no error; the not-found outcome of the query
(`sql.ErrNoRows`) is never surfaced, while any other engine error is returned
to the caller by the very translation (`getScan`) that `get` applies to its
query result. -/
theorem get_absent_empty_and_errors_propagate (p : SQLtPlainKV) (b k : String)
    (h : findRec p.recs (normBucket b) k = none) :
    (p.get b k).1 = ([], none) ∧
    (∀ e, getScan (QueryRowResult.engineErr e) = ([], some (PKVError.engineErr e))) ∧
    (p.get b k).1 = getScan (queryRow p.recs (normBucket b) k) := by
  refine ⟨?_, fun e => rfl, SQLtPlainKV.get_result p b k⟩
  rw [SQLtPlainKV.get_result]
  unfold queryRow
  rw [h]
  rfl

/-- Witness for Claim C8 on a fresh store. -/
theorem get_absent_empty_and_errors_propagate_witness :
    (freshKV.get "b" "x").1 = ([], none) :=
  (get_absent_empty_and_errors_propagate freshKV "b" "x" rfl).1

/-- Claim C9 (confirmed): with the stored current-bucket field equal to `""`,
`Set`, `Del` and `ListKeys` leave the field permanently set to `"default"` in
the resulting store, while the Tally family and the private `set` leave the
field untouched at `""`. -/
theorem currBuckt_frame (p : SQLtPlainKV) (k b pat : String) (v : Bytes)
    (off : Int) (h : p.currBuckt = "") :
    (p.Set k v).2.currBuckt = "default" ∧
    (p.Del k).2.currBuckt = "default" ∧
    (p.ListKeys pat).2.currBuckt = "default" ∧
    (p.Tally k off).2.currBuckt = "" ∧
    (p.TallyIncr k).2.currBuckt = "" ∧
    (p.TallyDecr k).2.currBuckt = "" ∧
    (p.TallyReset k).2.currBuckt = "" ∧
    (p.set b k v).2.currBuckt = "" := by
  have hnb : normBucket p.currBuckt = "default" := by rw [h]; rfl
  refine ⟨?_, ?_, ?_, ?_, ?_, ?_, ?_, ?_⟩
  · simp [SQLtPlainKV.Set, SQLtPlainKV.set_currBuckt, hnb]
  · exact (SQLtPlainKV.Del_recs p k).2.2.trans hnb
  · exact (SQLtPlainKV.ListKeys_spec p pat).2.2.trans hnb
  · exact (SQLtPlainKV.Tally_currBuckt p k off).trans h
  · exact (SQLtPlainKV.TallyIncr_currBuckt p k).trans h
  · exact (SQLtPlainKV.TallyDecr_currBuckt p k).trans h
  · exact (SQLtPlainKV.set_currBuckt p p.currBuckt (tallyKeyFor k)
      (strBytes "0")).trans h
  · exact (SQLtPlainKV.set_currBuckt p b k v).trans h

/-- Witness for Claim C9 at a concrete store whose bucket field is empty. -/
theorem currBuckt_frame_witness :
    (emptyBucketKV.Set "k" [49]).2.currBuckt = "default" ∧
    (emptyBucketKV.TallyReset "k").2.currBuckt = "" := by
  have h := currBuckt_frame emptyBucketKV "k" "b" "pp" [49] 0 rfl
  exact ⟨h.1, h.2.2.2.2.2.2.1⟩

/-- Claim C10 (confirmed): when the underlying lookup fails with an engine
error, the `GetMime` result shaping returns the default content type
`"text/html"` together with that error, and the returned string is identical
to the one returned when the mime association is simply absent — the string
alone cannot distinguish the two cases.  `GetMime` is exactly this shaping
applied to the private `get` on the mime bucket. -/
theorem getMime_engine_error_default (e : String) (p : SQLtPlainKV) (k : String) :
    mimeResult (getScan (QueryRowResult.engineErr e)) =
      (strBytes "text/html", some (PKVError.engineErr e)) ∧
    (mimeResult (getScan (QueryRowResult.engineErr e))).1 =
      (mimeResult (getScan QueryRowResult.noRows)).1 ∧
    (p.GetMime k).1 = mimeResult (p.get mimeBuckt k).1 :=
  ⟨rfl, rfl, rfl⟩
